import Mathlib

/-!
Verification of the bundler JSON-RPC contract declared in
src/src/bundler/utils/types.ts.

The source file is a set of TypeScript type declarations: the closed method
schema `BundlerRpcSchema` and the auxiliary wire shapes (`StateOverrides`,
`UserOpReceipt`, `GasFeeValues`, `JsonRpcError`, `SendUserOpResponse`,
`UserOpStatus`).  We embed the declarations shallowly at two levels:

1. a type-declaration level: each record type becomes a list of field
   declarations (name, declared scalar type, optional flag), and the schema
   becomes a list of (method name, parameter list, return type) triples, so
   that claims about the declared shapes are decidable computations; and
2. a value level: Lean structures whose inhabitants are exactly the
   well-typed values of the corresponding TypeScript types, used to settle
   claims about what values the declarations do or do not rule out.
-/

/-- Scalar type expressions that occur in the fields of the record types of
src/src/bundler/utils/types.ts, one constructor per distinct TypeScript type
expression: `string`, viem `Hex` (strings of shape 0x followed by hex text),
viem `Hash`, viem `Address`, `number`, `bigint`, a union of string literals
such as the pair true/false, `any`, `Array<any>`, the index signature taking
`Hex` keys to `Hex` values, the union of `bigint` and `number`, the external
entry-point address type `ENTRYPOINT_ADDRESS_V06_TYPE`, a reference to a named
record type declared elsewhere in the file, and a placeholder for encodings
that the available material does not fix. -/
inductive Enc where
  | str
  | hex
  | hash
  | address
  | num
  | bigint
  | strLit (vals : List String)
  | anyT
  | arrAny
  | hexIndexMap
  | bigintOrNum
  | entryPointV06
  | namedE (n : String)
  | unspec
deriving DecidableEq

/-- One field of a TypeScript record type: its name, its declared type, and
whether it is marked optional with a question mark. -/
structure FieldDecl where
  name : String
  ty : Enc
  optional : Bool
deriving DecidableEq

/-- The type expressions that occur as parameter and return types of the
methods of `BundlerRpcSchema`: a scalar, an inline or aliased record type
given by its fields, an array of a scalar, an index-signature map whose
values are records with the given fields, and a union with null.  The source
file never writes a union with null; the constructor is part of the grammar
so that nullability of a declared type is expressible. -/
inductive TsTy where
  | scalar (e : Enc)
  | record (fields : List FieldDecl)
  | arrOf (e : Enc)
  | indexMap (valueFields : List FieldDecl)
  | nullable (t : TsTy)
deriving DecidableEq

/-- One positional parameter of an RPC method: its declared type and whether
it is marked optional. -/
structure Param where
  ty : TsTy
  optional : Bool
deriving DecidableEq

/-- One entry of the RPC schema: the wire method name, the ordered positional
parameter tuple, and the declared return type. -/
structure RpcMethod where
  method : String
  params : List Param
  ret : TsTy
deriving DecidableEq

/-- Modelled from the spec: the type `UserOperationStruct` is imported into
src/src/bundler/utils/types.ts from ../../accounts, which is not under src/.
The data-model section of the spec lists its required fields: sender address,
nonce, call data, the three gas limits, the two fee caps, and a signature
blob, all required on the full record.  Encodings the spec does not fix are
marked `Enc.unspec`. -/
def UserOperationStruct : List FieldDecl :=
  [⟨"sender", .address, false⟩,
   ⟨"nonce", .unspec, false⟩,
   ⟨"callData", .unspec, false⟩,
   ⟨"callGasLimit", .unspec, false⟩,
   ⟨"verificationGasLimit", .unspec, false⟩,
   ⟨"preVerificationGas", .unspec, false⟩,
   ⟨"maxFeePerGas", .unspec, false⟩,
   ⟨"maxPriorityFeePerGas", .unspec, false⟩,
   ⟨"signature", .unspec, false⟩]

/-- The viem utility `PartialBy T K`, as used in the schema source: it makes
exactly the named keys optional and leaves every other field unchanged. -/
def PartialBy (fs : List FieldDecl) (keys : List String) : List FieldDecl :=
  fs.map fun f => if f.name ∈ keys then { f with optional := true } else f

/-- The three keys the schema removes the required mark from in the
parameter of eth_estimateUserOperationGas. -/
def estimateOmittedKeys : List String :=
  ["callGasLimit", "preVerificationGas", "verificationGasLimit"]

/-- The inline return record of eth_estimateUserOperationGas, copied field
by field from the schema source. -/
def estimateGasReturn : List FieldDecl :=
  [⟨"preVerificationGas", .str, false⟩,
   ⟨"verificationGasLimit", .str, false⟩,
   ⟨"callGasLimit", .str, true⟩,
   ⟨"maxPriorityFeePerGas", .str, false⟩,
   ⟨"maxFeePerGas", .str, false⟩]

/-- The return record of eth_getUserOperationByHash: the intersection of
`UserOperationStruct` with the inline record of inclusion metadata.  The two
operands have disjoint field names, so the intersection is the merged
record. -/
def getUserOperationByHashReturn : List FieldDecl :=
  UserOperationStruct ++
  [⟨"entryPoint", .entryPointV06, false⟩,
   ⟨"transactionHash", .hash, false⟩,
   ⟨"blockHash", .hash, false⟩,
   ⟨"blockNumber", .hex, false⟩]

/-- The `UserOpReceipt` record type, copied field by field from the schema
source: `userOpHash`, `entryPoint` and `paymaster` are `string`, the two gas
quantities are `Hex`, `success` is the literal union of true and false,
`reason` is `string`, `logs` is `Array<any>` and `receipt` is `any`. -/
def UserOpReceipt : List FieldDecl :=
  [⟨"userOpHash", .str, false⟩,
   ⟨"entryPoint", .str, false⟩,
   ⟨"paymaster", .str, false⟩,
   ⟨"actualGasCost", .hex, false⟩,
   ⟨"actualGasUsed", .hex, false⟩,
   ⟨"success", .strLit ["true", "false"], false⟩,
   ⟨"reason", .str, false⟩,
   ⟨"logs", .arrAny, false⟩,
   ⟨"receipt", .anyT, false⟩]

/-- The `GasFeeValues` record type: both fee quantities declared `string`. -/
def GasFeeValues : List FieldDecl :=
  [⟨"maxPriorityFeePerGas", .str, false⟩,
   ⟨"maxFeePerGas", .str, false⟩]

/-- The `JsonRpcError` record type: `code` and `message` declared `string`,
`data` declared `any`. -/
def JsonRpcError : List FieldDecl :=
  [⟨"code", .str, false⟩,
   ⟨"message", .str, false⟩,
   ⟨"data", .anyT, false⟩]

/-- The `SendUserOpResponse` record type: `jsonrpc` a string, `id` a number,
`result` a required string, and `error` an optional `JsonRpcError`. -/
def SendUserOpResponse : List FieldDecl :=
  [⟨"jsonrpc", .str, false⟩,
   ⟨"id", .num, false⟩,
   ⟨"result", .str, false⟩,
   ⟨"error", .namedE ("JsonRpcError"), true⟩]

/-- The `UserOpStatus` record type: a free-form `state` string, an optional
transaction hash and an optional embedded receipt. -/
def UserOpStatus : List FieldDecl :=
  [⟨"state", .str, false⟩,
   ⟨"transactionHash", .str, true⟩,
   ⟨"userOperationReceipt", .namedE ("UserOpReceipt"), true⟩]

/-- The `StateOverrides` type: an index-signature map from account keys to an
override record whose fields are all optional. -/
def StateOverrides : TsTy :=
  .indexMap
    [⟨"balance", .bigint, true⟩,
     ⟨"nonce", .bigintOrNum, true⟩,
     ⟨"code", .hex, true⟩,
     ⟨"state", .hexIndexMap, true⟩,
     ⟨"stateDiff", .hexIndexMap, true⟩]

/-- The `BundlerRpcSchema` declaration, entry by entry in source order: the
eight (method, parameters, return) triples of the contract. -/
def BundlerRpcSchema : List RpcMethod :=
  [⟨"eth_sendUserOperation",
    [⟨.record UserOperationStruct, false⟩,
     ⟨.scalar .entryPointV06, false⟩],
    .scalar .hash⟩,
   ⟨"eth_estimateUserOperationGas",
    [⟨.record (PartialBy UserOperationStruct estimateOmittedKeys), false⟩,
     ⟨.scalar .entryPointV06, false⟩,
     ⟨StateOverrides, true⟩],
    .record estimateGasReturn⟩,
   ⟨"eth_supportedEntryPoints", [], .arrOf .address⟩,
   ⟨"eth_chainId", [], .scalar .hex⟩,
   ⟨"eth_getUserOperationByHash",
    [⟨.scalar .hash, false⟩],
    .record getUserOperationByHashReturn⟩,
   ⟨"eth_getUserOperationReceipt",
    [⟨.scalar .hash, false⟩],
    .record UserOpReceipt⟩,
   ⟨"biconomy_getGasFeeValues", [], .record GasFeeValues⟩,
   ⟨"biconomy_getUserOperationStatus",
    [⟨.scalar .hash, false⟩],
    .record UserOpStatus⟩]

/-- Look a field up in a record type by name. -/
def findField (fs : List FieldDecl) (n : String) : Option FieldDecl :=
  fs.find? fun f => decide (f.name = n)

/-- The declared type of a named field, when the field exists. -/
def fieldType (fs : List FieldDecl) (n : String) : Option Enc :=
  (findField fs n).map FieldDecl.ty

/-- The optional flag of a named field, when the field exists. -/
def fieldOptional (fs : List FieldDecl) (n : String) : Option Bool :=
  (findField fs n).map FieldDecl.optional

/-- Look a method up in the schema by its wire name. -/
def methodNamed (s : String) : Option RpcMethod :=
  BundlerRpcSchema.find? fun m => decide (m.method = s)

/-- The declared return type of a named method, when the method exists. -/
def retOf (s : String) : Option TsTy :=
  (methodNamed s).map RpcMethod.ret

/-- Whether a declared type expression admits a null value: only a union
with null does (and the unconstrained type `any`). -/
def allowsNull : TsTy → Bool
  | .nullable _ => true
  | .scalar .anyT => true
  | _ => false

/-- Whether a declared scalar type admits a numeric (number or bigint)
value. -/
def allowsNumericValue : Enc → Bool
  | .num => true
  | .bigint => true
  | .bigintOrNum => true
  | .anyT => true
  | _ => false

/-- Whether a type expression is the state-override map shape. -/
def isStateOverrideTy : TsTy → Bool
  | .indexMap _ => true
  | _ => false

/-- Whether a method declares a state-override parameter anywhere in its
parameter tuple. -/
def hasStateOverrideParam (m : RpcMethod) : Bool :=
  m.params.any fun p => isStateOverrideTy p.ty

/-- In a record type, a required field is present in every well-typed value
and an optional field may be present, so a value carrying both of two fields
is well-typed exactly when both fields are declared. -/
def canBothBePresent (fs : List FieldDecl) (a b : String) : Bool :=
  (findField fs a).isSome && (findField fs b).isSome

/-- Two fields of a record type are mutually exclusive when no well-typed
value can carry both. -/
def exclusiveFields (fs : List FieldDecl) (a b : String) : Bool :=
  !(canBothBePresent fs a b)

/-- Abstract parameter shapes, following the wording of the method table of
the spec: a full user operation, a user operation missing the three gas
fields, an entry-point address, a hash argument, a state-override map, and a
catch-all for anything else. -/
inductive ParamShape where
  | userOperation
  | gasOmittedUserOperation
  | entryPointAddress
  | hashArg
  | stateOverrideMap
  | otherShape
deriving DecidableEq

/-- Abstract return shapes, following the wording of the method table of the
spec. -/
inductive RetShape where
  | operationHash
  | gasEstimate
  | entryPointList
  | chainIdHex
  | operationWithInclusion
  | operationReceipt
  | feeValues
  | operationStatus
  | otherRet
deriving DecidableEq

/-- Classify a declared parameter type by the abstract shapes of the method
table of the spec. -/
def shapeOf : TsTy → ParamShape
  | .record fs =>
      if fs = UserOperationStruct then .userOperation
      else if fs = PartialBy UserOperationStruct estimateOmittedKeys then
        .gasOmittedUserOperation
      else .otherShape
  | .scalar .entryPointV06 => .entryPointAddress
  | .scalar .hash => .hashArg
  | .indexMap _ => .stateOverrideMap
  | _ => .otherShape

/-- Classify a declared return type by the abstract shapes of the method
table of the spec. -/
def retShapeOf : TsTy → RetShape
  | .scalar .hash => .operationHash
  | .scalar .hex => .chainIdHex
  | .arrOf .address => .entryPointList
  | .record fs =>
      if fs = estimateGasReturn then .gasEstimate
      else if fs = getUserOperationByHashReturn then .operationWithInclusion
      else if fs = UserOpReceipt then .operationReceipt
      else if fs = GasFeeValues then .feeValues
      else if fs = UserOpStatus then .operationStatus
      else .otherRet
  | _ => .otherRet

/-- The method table of the spec, row by row: the wire name, the ordered
abstract parameter shapes with their optional marks, and the abstract return
shape.  This definition follows the words of the spec, to be compared with
the schema taken from the source. -/
def specMethodTable : List (String × List (ParamShape × Bool) × RetShape) :=
  [("eth_sendUserOperation",
    [(.userOperation, false), (.entryPointAddress, false)], .operationHash),
   ("eth_estimateUserOperationGas",
    [(.gasOmittedUserOperation, false), (.entryPointAddress, false),
     (.stateOverrideMap, true)], .gasEstimate),
   ("eth_supportedEntryPoints", [], .entryPointList),
   ("eth_chainId", [], .chainIdHex),
   ("eth_getUserOperationByHash", [(.hashArg, false)],
    .operationWithInclusion),
   ("eth_getUserOperationReceipt", [(.hashArg, false)], .operationReceipt),
   ("biconomy_getGasFeeValues", [], .feeValues),
   ("biconomy_getUserOperationStatus", [(.hashArg, false)],
    .operationStatus)]

/-- An opaque JSON value, modelling the TypeScript type `any` at the wire
boundary. -/
inductive JsonValue where
  | null
  | bool (b : Bool)
  | num (n : Int)
  | str (s : String)
  | arr (elems : List JsonValue)
  | obj (fields : List (String × JsonValue))

/-- Whether a string begins with the two characters 0 and x, the shape the
viem `Hex` template type requires. -/
def isHexPrefixed (s : String) : Bool :=
  match s.data with
  | '0' :: 'x' :: _ => true
  | _ => false

/-- A value of the viem `Hex` type: a string carrying the 0x mark. -/
structure HexStr where
  val : String
  hexShaped : isHexPrefixed val = true

/-- A value of the literal union type of the strings true and false, the
declared type of the `success` field of `UserOpReceipt`. -/
structure SuccessStr where
  val : String
  twoValued : val = "true" ∨ val = "false"

/-- A well-typed value of the `UserOpReceipt` record type, field for field:
the declarations constrain the shapes of the individual fields and nothing
else. -/
structure UserOpReceiptV where
  userOpHash : String
  entryPoint : String
  paymaster : String
  actualGasCost : HexStr
  actualGasUsed : HexStr
  success : SuccessStr
  reason : String
  logs : List JsonValue
  receipt : JsonValue

/-- A well-typed value of the `JsonRpcError` record type. -/
structure JsonRpcErrorV where
  code : String
  message : String
  data : JsonValue

/-- A well-typed value of the `SendUserOpResponse` record type: `result` is
a required field, `error` an optional one. -/
structure SendUserOpResponseV where
  jsonrpc : String
  id : Int
  result : String
  error : Option JsonRpcErrorV

/-- A concrete well-typed response that carries a result string and an error
envelope at the same time. -/
def bothResultAndError : SendUserOpResponseV :=
  ⟨"2.0", 1, "0x0",
   some ⟨"-32602", "Invalid params", JsonValue.null⟩⟩

/-- A concrete well-typed receipt whose `success` field is the string false
while its `reason` field is the empty string. -/
def revertedNoReasonReceipt : UserOpReceiptV :=
  ⟨"0x1", "0x2", "",
   ⟨"0x2af8", rfl⟩, ⟨"0x5208", rfl⟩,
   ⟨"false", Or.inr rfl⟩, "", [], JsonValue.null⟩

/-- Claim C1: the bundler RPC schema defines exactly the eight listed
methods, each as a (method-name, parameter-tuple, return-type) triple, with
the parameter tuples of the method table of the spec, and no method outside
this set: abstracting every entry of the schema by its shapes yields exactly
the eight rows of the spec table. -/
theorem claim_C1 :
    BundlerRpcSchema.length = 8 ∧
    BundlerRpcSchema.map
        (fun m =>
          (m.method, m.params.map (fun p => (shapeOf p.ty, p.optional)),
            retShapeOf m.ret)) =
      specMethodTable := by
  decide

/-- Claim C2: the first parameter of eth_estimateUserOperationGas is the
user-operation record with exactly the three fields callGasLimit,
preVerificationGas and verificationGasLimit made optional, each marked on
its own field and hence independently omittable, while every other field of
the record keeps its required mark. -/
theorem claim_C2 :
    ((methodNamed ("eth_estimateUserOperationGas")).bind
        (fun m => m.params.head?)).map Param.ty =
      some (.record (PartialBy UserOperationStruct estimateOmittedKeys)) ∧
    ((PartialBy UserOperationStruct estimateOmittedKeys).all
        (fun f => f.optional == decide (f.name ∈ estimateOmittedKeys))) =
      true := by
  decide

/-- Claim C3: the return record of eth_estimateUserOperationGas has exactly
the five fields preVerificationGas, verificationGasLimit, callGasLimit,
maxPriorityFeePerGas and maxFeePerGas, every field is declared as a plain
string (the numeric-as-string convention of the contract), and callGasLimit
is the only optional one. -/
theorem claim_C3 :
    retOf ("eth_estimateUserOperationGas") = some (.record estimateGasReturn) ∧
    estimateGasReturn.map FieldDecl.name =
      ["preVerificationGas", "verificationGasLimit", "callGasLimit",
       "maxPriorityFeePerGas", "maxFeePerGas"] ∧
    (estimateGasReturn.all fun f => decide (f.ty = Enc.str)) = true ∧
    (estimateGasReturn.filter fun f => f.optional).map FieldDecl.name =
      ["callGasLimit"] := by
  decide

/-- Claim C4: filtering the schema for methods whose parameter tuple
contains a state-override map leaves exactly eth_estimateUserOperationGas,
and there the state-override parameter is marked optional. -/
theorem claim_C4 :
    (BundlerRpcSchema.filter hasStateOverrideParam).map RpcMethod.method =
      ["eth_estimateUserOperationGas"] ∧
    ((methodNamed ("eth_estimateUserOperationGas")).map fun m =>
        (m.params.filter fun p => isStateOverrideTy p.ty).map
          Param.optional) =
      some [true] := by
  decide

/-- Claim C5, evaluation at the failing point: the declared return types of
eth_getUserOperationByHash and eth_getUserOperationReceipt contain no union
with null, so neither admits the null not-found result that the contract
requires for a hash that was never submitted. -/
theorem claim_C5_eval :
    (retOf ("eth_getUserOperationByHash")).map allowsNull = some false ∧
    (retOf ("eth_getUserOperationReceipt")).map allowsNull = some false := by
  decide

/-- Claim C6, counterexample: the code field of JsonRpcError is declared as
the plain string type, which does not admit a numeric value such as the
number -32602, so the claim that the field can hold either a numeric or a
string code fails on the declaration. -/
theorem claim_C6_counterexample :
    fieldType JsonRpcError ("code") = some Enc.str ∧
    (fieldType JsonRpcError ("code")).map allowsNumericValue = some false := by
  decide

/-- Claim C6 as amended: the JsonRpcError envelope declares a string code
field only (a numeric code travels as its string form), together with a
string message and an opaque data field of type any. -/
theorem claim_C6 :
    fieldType JsonRpcError ("code") = some Enc.str ∧
    allowsNumericValue Enc.str = false ∧
    fieldType JsonRpcError ("message") = some Enc.str ∧
    fieldType JsonRpcError ("data") = some Enc.anyT := by
  decide

/-- Claim C7, counterexample: in SendUserOpResponse the fields result and
error are not mutually exclusive, since result is required and error is an
independently optional field, and the concrete response bothResultAndError
is a well-typed value carrying both a result string and an error
envelope. -/
theorem claim_C7_counterexample :
    exclusiveFields SendUserOpResponse ("result") ("error") = false ∧
    fieldOptional SendUserOpResponse ("result") = some false ∧
    bothResultAndError.result = "0x0" ∧
    bothResultAndError.error.isSome = true := by
  exact ⟨by decide, by decide, rfl, rfl⟩

/-- Claim C7 as amended: SendUserOpResponse declares result as a required
string that is present on every response, failed ones included, and error
as an independent optional envelope, so a response may carry both and a
failed response still carries a required result. -/
theorem claim_C7 :
    fieldOptional SendUserOpResponse ("result") = some false ∧
    fieldOptional SendUserOpResponse ("error") = some true ∧
    canBothBePresent SendUserOpResponse ("result") ("error") = true := by
  decide

/-- Claim C8, counterexample: the receipt revertedNoReasonReceipt is a
well-typed UserOpReceipt value whose success field is the string false and
whose reason field is the empty string, so the claimed invariant tying a
non-empty reason to a false success flag fails on the declared type. -/
theorem claim_C8_counterexample :
    revertedNoReasonReceipt.success.val = "false" ∧
    revertedNoReasonReceipt.reason = "" := by
  exact ⟨rfl, rfl⟩

/-- Claim C8 as amended: the declared UserOpReceipt type constrains success
to the two strings true and false, and declares reason as an unconstrained
string with no link between the two fields, so the success-determines-reason
rule is a bundler-side contract the type does not enforce. -/
theorem claim_C8 :
    (∀ r : UserOpReceiptV,
      r.success.val = "true" ∨ r.success.val = "false") ∧
    fieldType UserOpReceipt ("success") =
      some (Enc.strLit ["true", "false"]) ∧
    fieldType UserOpReceipt ("reason") = some Enc.str := by
  exact ⟨fun r => r.success.twoValued, by decide, by decide⟩

/-- Claim C9: the encoding is non-uniform by design: every gas and fee
quantity of the estimate return and of the fee oracle is declared as a plain
string, the decimal numeric-as-string convention, while the chain id return
and the blockNumber field are declared with the Hex type, whose values all
carry the 0x mark of a base-16 encoding, and the two declared types are
distinct. -/
theorem claim_C9 :
    (estimateGasReturn.all fun f => decide (f.ty = Enc.str)) = true ∧
    (GasFeeValues.all fun f => decide (f.ty = Enc.str)) = true ∧
    retOf ("eth_chainId") = some (.scalar .hex) ∧
    fieldType getUserOperationByHashReturn ("blockNumber") = some Enc.hex ∧
    decide (Enc.str = Enc.hex) = false ∧
    (∀ h : HexStr, isHexPrefixed h.val = true) := by
  exact ⟨by decide, by decide, by decide, by decide, by decide,
    fun h => h.hexShaped⟩

/-- Claim C10: in UserOpReceipt the fields actualGasCost and actualGasUsed
are declared with the Hex type, not the plain string type of the estimate
and fee-oracle quantities, and every well-typed receipt value carries both
gas quantities as 0x-marked strings, to be parsed base-16. -/
theorem claim_C10 :
    fieldType UserOpReceipt ("actualGasCost") = some Enc.hex ∧
    fieldType UserOpReceipt ("actualGasUsed") = some Enc.hex ∧
    decide (Enc.hex = Enc.str) = false ∧
    (∀ r : UserOpReceiptV,
      isHexPrefixed r.actualGasCost.val = true ∧
      isHexPrefixed r.actualGasUsed.val = true) := by
  exact ⟨by decide, by decide, by decide,
    fun r => ⟨r.actualGasCost.hexShaped, r.actualGasUsed.hexShaped⟩⟩
